import Mathlib

/-!
Verification of the client-side channel runtime of the gRPC-style RPC stack
in this repository (subchannel state machine, DNS resolver, resolving load
balancer, channel pick pipeline, call stream status handling).  Each
definition is a shallow embedding of the corresponding JavaScript source.
-/

namespace GrpcJs

/-- Connectivity states, as declared in channel.js (`ConnectivityState` enum,
in declaration order CONNECTING, READY, TRANSIENT_FAILURE, IDLE, SHUTDOWN). -/
inductive ConnectivityState
  | CONNECTING
  | READY
  | TRANSIENT_FAILURE
  | IDLE
  | SHUTDOWN
deriving DecidableEq, Repr

/-- gRPC status codes (the `Status` enum of constants.js). -/
inductive Status
  | OK
  | CANCELLED
  | UNKNOWN
  | INVALID_ARGUMENT
  | DEADLINE_EXCEEDED
  | NOT_FOUND
  | ALREADY_EXISTS
  | PERMISSION_DENIED
  | RESOURCE_EXHAUSTED
  | FAILED_PRECONDITION
  | ABORTED
  | OUT_OF_RANGE
  | UNIMPLEMENTED
  | INTERNAL
  | UNAVAILABLE
  | DATA_LOSS
  | UNAUTHENTICATED
deriving DecidableEq, Repr

/-- A status object `{code, details}` as passed around the runtime.  The
`metadata` field of the source's status objects carries no information
relevant to the claims and is omitted. -/
structure StatusObject where
  code : Status
  details : String
deriving DecidableEq, Repr

/-- A service config document.  The source treats its fields as opaque JSON
in the places the claims are about; the load balancing config entries are
represented by their policy names. -/
structure ServiceConfig where
  loadBalancingConfig : List String
  methodConfig : List String
deriving DecidableEq, Repr

/-! Call stream status mapping (call-stream.js).  `Http2CallStream` keeps a
field `mappedStatusCode` (initially UNKNOWN) that the HTTP/2 `response`
handler sets from the `:status` header; `handleTrailers` then builds the
final status from it. -/

/-- The switch over `headers[':status']` in the `response` handler of
`Http2CallStream.attachHttp2Stream` (call-stream.js). -/
def responseMappedStatusCode (httpStatus : Nat) : Status :=
  if httpStatus = 400 then Status.INTERNAL
  else if httpStatus = 401 then Status.UNAUTHENTICATED
  else if httpStatus = 403 then Status.PERMISSION_DENIED
  else if httpStatus = 404 then Status.UNIMPLEMENTED
  else if httpStatus = 429 ∨ httpStatus = 502 ∨ httpStatus = 503 ∨ httpStatus = 504 then
    Status.UNAVAILABLE
  else Status.UNKNOWN

/-- Modelled from the spec: the metadata-status filter is not under src/ (only
its caller, `Http2CallStream.handleTrailers`, is).  Per section 4.8 of the
spec it rewrites the inbound trailer status to the received `grpc-status`
value when one is present and otherwise leaves the status unchanged. -/
def receiveTrailersStatus (grpcStatus : Option Status) (s : StatusObject) : StatusObject :=
  match grpcStatus with
  | some code => { s with code := code }
  | none => s

/-- `Http2CallStream.handleTrailers` (call-stream.js): the status fed to the
trailer filter pipeline is `{code := mappedStatusCode, details := ""}`; the
pipeline's result becomes the final status of the call via `endCall`. -/
def handleTrailersFinalStatus (mappedStatusCode : Status) (grpcStatus : Option Status) :
    StatusObject :=
  receiveTrailersStatus grpcStatus { code := mappedStatusCode, details := "" }

/-! Call stream termination (call-stream.js, `Http2CallStream.endCall`). -/

/-- The observable state of an `Http2CallStream` that `endCall` touches:
`finalStatus` (null until the call ends), the number of times the `status`
event has been scheduled, whether a subchannel is attached, and how many
times `callUnref` and `removeDisconnectListener` have run on it. -/
structure CallStreamState where
  finalStatus : Option StatusObject
  statusEventCount : Nat
  hasSubchannel : Bool
  callUnrefCount : Nat
  disconnectRemoveCount : Nat
deriving DecidableEq, Repr

/-- `Http2CallStream.endCall(status)`: on first call (while `finalStatus` is
null) it records the status, schedules one `status` event, and if a
subchannel is attached unrefs it and removes the disconnect listener;
subsequent calls do nothing. -/
def endCall (st : CallStreamState) (status : StatusObject) : CallStreamState :=
  match st.finalStatus with
  | none =>
      { st with
        finalStatus := some status
        statusEventCount := st.statusEventCount + 1
        callUnrefCount := st.callUnrefCount + (if st.hasSubchannel then 1 else 0)
        disconnectRemoveCount := st.disconnectRemoveCount + (if st.hasSubchannel then 1 else 0) }
  | some _ => st

/-! Service config selection (resolving-load-balancer.js, the
`onSuccessfulResolution` listener installed by the `ResolvingLoadBalancer`
constructor). -/

/-- The outcome of the first conditional group of `onSuccessfulResolution`:
the working service config chosen for this resolution, the new value of the
`previousServiceConfig` field, and the error passed to
`handleResolutionFailure` when that path is taken.  `previousServiceConfig`
is doubly optional because the source distinguishes `undefined` (no
successful resolution has set it, the outer `none`) from `null` (a prior
resolution explicitly stored a null config, `some none`). -/
structure ResolutionConfigOutcome where
  workingServiceConfig : Option ServiceConfig
  previousServiceConfig : Option (Option ServiceConfig)
  failureSurfaced : Option StatusObject
deriving DecidableEq, Repr

/-- The service-config selection algorithm of `onSuccessfulResolution`
(resolving-load-balancer.js lines 98-134), translated clause by clause. -/
def chooseServiceConfig (serviceConfig : Option ServiceConfig)
    (serviceConfigError : Option StatusObject)
    (defaultServiceConfig : Option ServiceConfig)
    (previousServiceConfig : Option (Option ServiceConfig)) : ResolutionConfigOutcome :=
  match serviceConfig with
  | none =>
      match serviceConfigError with
      | none =>
          { workingServiceConfig := defaultServiceConfig
            previousServiceConfig := some none
            failureSurfaced := none }
      | some err =>
          match previousServiceConfig with
          | none =>
              match defaultServiceConfig with
              | none =>
                  { workingServiceConfig := none
                    previousServiceConfig := none
                    failureSurfaced := some err }
              | some d =>
                  { workingServiceConfig := some d
                    previousServiceConfig := none
                    failureSurfaced := none }
          | some prev =>
              { workingServiceConfig := prev
                previousServiceConfig := some prev
                failureSurfaced := none }
  | some sc =>
      { workingServiceConfig := some sc
        previousServiceConfig := some (some sc)
        failureSurfaced := none }

/-! Channel pick dispatch (channel.js, `ChannelImplementation.tryPick`). -/

/-- The per-call metadata as `tryPick` uses it: only the `waitForReady`
option is consulted (`callMetadata.getOptions().waitForReady`). -/
structure Metadata where
  waitForReady : Bool
deriving DecidableEq, Repr

/-- A picker result (picker.js).  `COMPLETE` carries the picked subchannel,
which may be null ("drop"); only its presence matters here because `tryPick`
re-reads the subchannel's connectivity state after the outgoing-metadata
filters complete, and that later state is passed to `tryPick` separately. -/
inductive PickResult
  | COMPLETE (subchannel : Option Unit)
  | QUEUE
  | TRANSIENT_FAILURE (status : StatusObject)
deriving DecidableEq, Repr

/-- The outcome of the asynchronous outgoing-metadata filter stack for the
call: either the final metadata, or a rejection carrying an error with an
optional status code (`error.code`). -/
inductive FilterResult
  | ok (finalMetadata : Metadata)
  | err (code : Status) (message : String)
deriving DecidableEq, Repr

/-- What `tryPick` does with the call. -/
inductive TryPickAction
  | cancelWithStatus (code : Status) (details : String)
  | startCallStream
  | queued
deriving DecidableEq, Repr

/-- `ChannelImplementation.tryPick` (channel.js).  Arguments beyond the pick
result reflect the asynchronous continuations: `filterResult` is the outcome
of `callStream.filterStack.sendMetadata`, `subchannelStateAfterFilters` is
what `pickResult.subchannel.getConnectivityState()` returns once the filters
have completed, and `startCallSucceeds` is whether
`subchannel.startCallStream` returns without throwing.  Returns the action
taken on the call together with the new `pickQueue`.  In the filter-error
branch the source computes `error.code || Status.UNKNOWN`; since `Status.OK`
is `0` and hence falsy, `OK` also falls back to `UNKNOWN`. -/
def tryPick (pickQueue : List Metadata) (pickResult : PickResult) (callMetadata : Metadata)
    (filterResult : FilterResult) (subchannelStateAfterFilters : ConnectivityState)
    (startCallSucceeds : Bool) : TryPickAction × List Metadata :=
  match pickResult with
  | PickResult.COMPLETE none =>
      (TryPickAction.cancelWithStatus Status.UNAVAILABLE
        "Request dropped by load balancing policy", pickQueue)
  | PickResult.COMPLETE (some _) =>
      match filterResult with
      | FilterResult.ok _ =>
          if subchannelStateAfterFilters = ConnectivityState.READY then
            if startCallSucceeds then (TryPickAction.startCallStream, pickQueue)
            else
              (TryPickAction.cancelWithStatus Status.UNAVAILABLE
                "Failed to start call on picked subchannel", pickQueue)
          else
            (TryPickAction.cancelWithStatus Status.UNAVAILABLE
              "Connection dropped while starting call", pickQueue)
      | FilterResult.err code message =>
          ((TryPickAction.cancelWithStatus (if code = Status.OK then Status.UNKNOWN else code)
            ("Getting metadata from plugin failed with error: " ++ message)), pickQueue)
  | PickResult.QUEUE => (TryPickAction.queued, pickQueue ++ [callMetadata])
  | PickResult.TRANSIENT_FAILURE status =>
      if callMetadata.waitForReady then (TryPickAction.queued, pickQueue ++ [callMetadata])
      else (TryPickAction.cancelWithStatus status.code status.details, pickQueue)

/-! Channel connectivity state watchers (channel.js,
`ChannelImplementation.watchConnectivityState` and `updateState`). -/

/-- An entry of `connectivityStateWatchers`: the state the caller last saw
and its callback, identified by a number (the source stores the function
itself; identity is all that matters). -/
structure Watcher where
  currentState : ConnectivityState
  callbackId : Nat
deriving DecidableEq, Repr

/-- The channel state that the watcher operations read and write. -/
structure ChannelState where
  connectivityState : ConnectivityState
  connectivityStateWatchers : List Watcher
deriving DecidableEq, Repr

/-- What `watchConnectivityState` did: either it scheduled exactly one
asynchronous invocation of the callback with a deadline error
(`process.nextTick(callback, new Error(...))`), or it registered a watcher. -/
inductive WatchResult
  | deadlinePassedCallback (callbackId : Nat)
  | watcherRegistered (w : Watcher)
deriving DecidableEq, Repr

/-- `ChannelImplementation.watchConnectivityState(currentState, deadline,
callback)` (channel.js lines 259-275), with the deadline and the current
clock as integers. -/
def watchConnectivityState (ch : ChannelState) (currentState : ConnectivityState)
    (deadline now : Int) (callbackId : Nat) : ChannelState × WatchResult :=
  if deadline ≤ now then
    (ch, WatchResult.deadlinePassedCallback callbackId)
  else
    ({ ch with
        connectivityStateWatchers :=
          ch.connectivityStateWatchers ++ [{ currentState := currentState, callbackId := callbackId }] },
      WatchResult.watcherRegistered { currentState := currentState, callbackId := callbackId })

/-- `ChannelImplementation.updateState(newState)` (channel.js): every watcher
whose recorded state differs from the new state has its callback invoked and
is removed.  Returns the new channel state and the callback ids invoked. -/
def updateState (ch : ChannelState) (newState : ConnectivityState) : ChannelState × List Nat :=
  ({ connectivityState := newState
     connectivityStateWatchers :=
       ch.connectivityStateWatchers.filter (fun w => decide (newState = w.currentState)) },
    (ch.connectivityStateWatchers.filter (fun w => decide (newState ≠ w.currentState))).map
      Watcher.callbackId)

/-- A sequence of later channel state transitions: runs `updateState` for
each state in turn and accumulates every callback id invoked. -/
def runConnectivityUpdates (ch : ChannelState) : List ConnectivityState → ChannelState × List Nat
  | [] => (ch, [])
  | ns :: rest =>
      ((runConnectivityUpdates (updateState ch ns).1 rest).1,
        (updateState ch ns).2 ++ (runConnectivityUpdates (updateState ch ns).1 rest).2)

/-! Resolving load balancer inner/pending pair
(resolving-load-balancer.js). -/

/-- The two load balancer slots of a `ResolvingLoadBalancer`, each recorded
by the policy type name of the balancer occupying it (`none` is the source's
`null`).  All other fields are irrelevant to the invariant claimed. -/
structure RLBState where
  innerLoadBalancer : Option String
  pendingReplacementLoadBalancer : Option String
deriving DecidableEq, Repr

/-- Field state after the `ResolvingLoadBalancer` constructor runs: both
slots are null. -/
def rlbInitialState : RLBState :=
  { innerLoadBalancer := none, pendingReplacementLoadBalancer := none }

/-- The operations of `ResolvingLoadBalancer` that can touch the two slots.
`successfulResolution` carries the load balancer name chosen from the
working service config; `innerStateUpdate` and `replacementStateUpdate` are
the `updateState` callbacks of the inner and replacement channel control
helpers; the remaining operations leave both slots alone. -/
inductive RLBEvent
  | successfulResolution (loadBalancerName : String)
  | resolutionFailure
  | innerStateUpdate (connectivityState : ConnectivityState)
  | replacementStateUpdate (connectivityState : ConnectivityState)
  | destroy
  | resetBackoff
  | exitIdle
  | backoffExpiry
  | updateResolution
deriving DecidableEq, Repr

/-- `ResolvingLoadBalancer.switchOverReplacementBalancer`
(resolving-load-balancer.js lines 298-306): the replacement becomes the
inner balancer and the pending slot is cleared. -/
def switchOverReplacementBalancer (s : RLBState) : RLBState :=
  { innerLoadBalancer := s.pendingReplacementLoadBalancer
    pendingReplacementLoadBalancer := none }

/-- One operation of the `ResolvingLoadBalancer`, restricted to its effect
on the two load balancer slots (resolving-load-balancer.js).  A
`replacementStateUpdate` can only be reported by an existing pending
balancer, so it is a no-op when the pending slot is empty. -/
def rlbStep (s : RLBState) (e : RLBEvent) : RLBState :=
  match e with
  | RLBEvent.successfulResolution loadBalancerName =>
      match s.innerLoadBalancer with
      | none => { s with innerLoadBalancer := some loadBalancerName }
      | some innerName =>
          if innerName = loadBalancerName then s
          else
            match s.pendingReplacementLoadBalancer with
            | none => { s with pendingReplacementLoadBalancer := some loadBalancerName }
            | some pendingName =>
                if pendingName = loadBalancerName then s
                else { s with pendingReplacementLoadBalancer := some loadBalancerName }
  | RLBEvent.innerStateUpdate connectivityState =>
      if connectivityState ≠ ConnectivityState.READY ∧
          s.pendingReplacementLoadBalancer ≠ none then
        switchOverReplacementBalancer s
      else if connectivityState = ConnectivityState.IDLE then
        { s with innerLoadBalancer := none }
      else s
  | RLBEvent.replacementStateUpdate connectivityState =>
      match s.pendingReplacementLoadBalancer with
      | none => s
      | some _ =>
          if connectivityState = ConnectivityState.READY then
            switchOverReplacementBalancer s
          else if connectivityState = ConnectivityState.IDLE then
            { s with pendingReplacementLoadBalancer := none }
          else s
  | RLBEvent.destroy =>
      { innerLoadBalancer := none, pendingReplacementLoadBalancer := none }
  | RLBEvent.resolutionFailure => s
  | RLBEvent.resetBackoff => s
  | RLBEvent.exitIdle => s
  | RLBEvent.backoffExpiry => s
  | RLBEvent.updateResolution => s

/-- The documented invariant of resolving-load-balancer.js:
`innerLoadBalancer === null` implies
`pendingReplacementLoadBalancer === null`. -/
def RLBInvariant (s : RLBState) : Prop :=
  s.innerLoadBalancer = none → s.pendingReplacementLoadBalancer = none

/-! Subchannel connectivity state machine (subchannel.js). -/

/-- The subchannel fields driving its state machine: the current
connectivity state and the `continueConnecting` flag (backoff expiry goes to
CONNECTING instead of IDLE when it is set). -/
structure SubchannelState where
  connectivityState : ConnectivityState
  continueConnecting : Bool
deriving DecidableEq, Repr

/-- `Subchannel.transitionToState(oldStates, newState)` (subchannel.js lines
228-280): if the current state is not in `oldStates` nothing happens and
`false` is returned; otherwise the state becomes `newState` and, on entering
CONNECTING, `continueConnecting` is reset to `false`.  The timer and session
side effects of the switch statement do not touch these fields otherwise. -/
def transitionToState (oldStates : List ConnectivityState) (newState : ConnectivityState)
    (s : SubchannelState) : Bool × SubchannelState :=
  if s.connectivityState ∈ oldStates then
    (true,
      { connectivityState := newState
        continueConnecting := if newState = ConnectivityState.CONNECTING then false
          else s.continueConnecting })
  else (false, s)

/-- The events that drive `Subchannel` state transitions (subchannel.js):
`startConnecting` is the public method; `transportConnect`, `transportClose`
and `goaway` are the session event handlers installed by
`startConnectingInternal`; `backoffExpiry` is the `BackoffTimeout` callback
installed by the constructor; `keepaliveTimeoutFires` is the unanswered-ping
timeout of `sendPing`; `bothRefcountsZero` is `checkBothRefcounts` with both
refcounts at zero; `resetBackoff` is the public method. -/
inductive SubchannelEvent
  | startConnecting
  | transportConnect
  | transportClose
  | goaway
  | backoffExpiry
  | keepaliveTimeoutFires
  | bothRefcountsZero
  | resetBackoff
deriving DecidableEq, Repr

/-- The effect of each subchannel event on the state machine, with each
handler's `transitionToState` calls translated verbatim (subchannel.js). -/
def subchannelStep (e : SubchannelEvent) (s : SubchannelState) : SubchannelState :=
  match e with
  | SubchannelEvent.startConnecting =>
      let r := transitionToState [ConnectivityState.IDLE] ConnectivityState.CONNECTING s
      if r.1 then r.2
      else if r.2.connectivityState = ConnectivityState.TRANSIENT_FAILURE then
        { r.2 with continueConnecting := true }
      else r.2
  | SubchannelEvent.transportConnect =>
      (transitionToState [ConnectivityState.CONNECTING] ConnectivityState.READY s).2
  | SubchannelEvent.transportClose =>
      (transitionToState [ConnectivityState.READY] ConnectivityState.IDLE
        (transitionToState [ConnectivityState.CONNECTING]
          ConnectivityState.TRANSIENT_FAILURE s).2).2
  | SubchannelEvent.goaway =>
      (transitionToState [ConnectivityState.CONNECTING, ConnectivityState.READY]
        ConnectivityState.IDLE s).2
  | SubchannelEvent.backoffExpiry =>
      if s.continueConnecting then
        (transitionToState [ConnectivityState.TRANSIENT_FAILURE, ConnectivityState.CONNECTING]
          ConnectivityState.CONNECTING s).2
      else
        (transitionToState [ConnectivityState.TRANSIENT_FAILURE, ConnectivityState.CONNECTING]
          ConnectivityState.IDLE s).2
  | SubchannelEvent.keepaliveTimeoutFires =>
      (transitionToState [ConnectivityState.READY] ConnectivityState.IDLE s).2
  | SubchannelEvent.bothRefcountsZero =>
      (transitionToState
        [ConnectivityState.CONNECTING, ConnectivityState.IDLE, ConnectivityState.READY]
        ConnectivityState.TRANSIENT_FAILURE s).2
  | SubchannelEvent.resetBackoff =>
      (transitionToState [ConnectivityState.TRANSIENT_FAILURE] ConnectivityState.CONNECTING s).2

/-- The transition pairs permitted by the claim (the section 4.3 table):
IDLE to CONNECTING; CONNECTING to READY; CONNECTING to TRANSIENT_FAILURE;
READY to IDLE; TRANSIENT_FAILURE to IDLE or CONNECTING; and CONNECTING,
IDLE or READY to TRANSIENT_FAILURE on shutdown. -/
def claimedSubchannelTransitions : List (ConnectivityState × ConnectivityState) :=
  [(ConnectivityState.IDLE, ConnectivityState.CONNECTING),
   (ConnectivityState.CONNECTING, ConnectivityState.READY),
   (ConnectivityState.CONNECTING, ConnectivityState.TRANSIENT_FAILURE),
   (ConnectivityState.READY, ConnectivityState.IDLE),
   (ConnectivityState.TRANSIENT_FAILURE, ConnectivityState.IDLE),
   (ConnectivityState.TRANSIENT_FAILURE, ConnectivityState.CONNECTING),
   (ConnectivityState.IDLE, ConnectivityState.TRANSIENT_FAILURE),
   (ConnectivityState.READY, ConnectivityState.TRANSIENT_FAILURE)]

/-- The transition pairs the code can actually produce: the claimed table
plus CONNECTING to IDLE, which the `goaway` handler and the backoff expiry
callback both perform. -/
def observedSubchannelTransitions : List (ConnectivityState × ConnectivityState) :=
  claimedSubchannelTransitions ++ [(ConnectivityState.CONNECTING, ConnectivityState.IDLE)]

/-! DNS resolver (resolver-dns.js).  The target-parsing regular expressions
IPV4_REGEX, IPV6_REGEX, IPV6_BRACKET_REGEX and DNS_REGEX are embedded as
equivalent deterministic character-list matchers; each matcher's doc comment
records the regular expression it implements. -/

/-- The regex class \d. -/
def isDigitChar (c : Char) : Bool := c.isDigit

/-- The regex class [0-9a-f] under the case-insensitive flag. -/
def isHexChar (c : Char) : Bool :=
  c.isDigit || ('a' ≤ c && c ≤ 'f') || ('A' ≤ c && c ≤ 'F')

/-- The regex class [a-zA-Z0-9-] used for DNS labels. -/
def isLabelChar (c : Char) : Bool := c.isAlphanum || c = '-'

/-- One or more digits (\d+). -/
def allDigits (l : List Char) : Bool := !l.isEmpty && l.all isDigitChar

/-- Split a character list on a separator character, keeping empty pieces,
like the pieces between occurrences of a character a regex cannot match
elsewhere. -/
def splitOnChar (sep : Char) : List Char → List (List Char)
  | [] => [[]]
  | c :: rest =>
      if c = sep then [] :: splitOnChar sep rest
      else
        match splitOnChar sep rest with
        | h :: t => (c :: h) :: t
        | [] => [[c]]

/-- One to three digits (\d begin-brace 1,3 end-brace). -/
def isIPv4Octet (l : List Char) : Bool :=
  decide (1 ≤ l.length) && decide (l.length ≤ 3) && l.all isDigitChar

/-- Group 1 of IPV4_REGEX: four octets separated by periods.  Since the
octets cannot contain a period, the regex decomposition is exactly the
period-split into four octet pieces. -/
def ipv4AddrBody (l : List Char) : Bool :=
  decide ((splitOnChar '.' l).length = 4) && (splitOnChar '.' l).all isIPv4Octet

/-- IPV4_REGEX applied to the whole target: the address, and the port when
the optional colon-port suffix is present.  Neither the address nor the
port can contain a colon, so a matching target splits on the colon into
exactly one or two pieces. -/
def ipv4MatchGroups (target : String) : Option (String × Option String) :=
  match splitOnChar ':' target.toList with
  | [addr] => if ipv4AddrBody addr then some (String.mk addr, none) else none
  | [addr, port] =>
      if ipv4AddrBody addr && allDigits port then
        some (String.mk addr, some (String.mk port))
      else none
  | _ => none

/-- The IPv6 body language of IPV6_REGEX, as the equivalent deterministic
automaton: the head hex group of up to four digits followed by one or more
colon groups (one or two colons, then up to four hex digits) is exactly the
set of strings over hex digits and colons that contain at least one colon
and no run of more than four consecutive hex digits, because consecutive
colon groups may have empty hex parts between them.  The automaton tracks
the current hex-run length and whether a colon has been seen. -/
def ipv6BodyAux : List Char → Nat → Bool → Bool
  | [], _, seenColon => seenColon
  | c :: rest, run, seenColon =>
      if c = ':' then ipv6BodyAux rest 0 true
      else if isHexChar c then decide (run + 1 ≤ 4) && ipv6BodyAux rest (run + 1) seenColon
      else false

/-- Group 1 of IPV6_REGEX (which is the whole target; that regex has no
port group). -/
def ipv6Body (l : List Char) : Bool := ipv6BodyAux l 0 false

/-- IPV6_REGEX applied to the whole target. -/
def ipv6MatchGroups (target : String) : Option String :=
  if ipv6Body target.toList then some target else none

/-- Consume characters up to the first closing square bracket, returning the
piece before it and the remainder after it.  The bracketed IPv6 body cannot
contain a closing bracket, so the first one is the regex's split point. -/
def splitUntilRBracket : List Char → Option (List Char × List Char)
  | [] => none
  | c :: rest =>
      if c = ']' then some ([], rest)
      else (splitUntilRBracket rest).map (fun p => (c :: p.1, p.2))

/-- IPV6_BRACKET_REGEX applied to the whole target: an IPv6 body in square
brackets, optionally followed by a colon and a port. -/
def ipv6BracketMatchGroups (target : String) : Option (String × Option String) :=
  match target.toList with
  | '[' :: rest =>
      match splitUntilRBracket rest with
      | none => none
      | some (body, after) =>
          if ipv6Body body then
            match after with
            | [] => some (String.mk body, none)
            | ':' :: portChars =>
                if allDigits portChars then
                  some (String.mk body, some (String.mk portChars))
                else none
            | _ => none
          else none
  | _ => none

/-- The default TCP port (resolver-dns.js). -/
def DEFAULT_PORT : String := "443"

/-- `parseIP(target)` (resolver-dns.js lines 91-109): try IPV4_REGEX, then
IPV6_REGEX, then IPV6_BRACKET_REGEX; IPv6 addresses are bracket-wrapped and
a missing port defaults to 443. -/
def parseIP (target : String) : Option (List String) :=
  match ipv4MatchGroups target with
  | some (addr, port) => some [addr ++ ":" ++ port.getD DEFAULT_PORT]
  | none =>
      match ipv6MatchGroups target with
      | some addr => some ["[" ++ addr ++ "]:" ++ DEFAULT_PORT]
      | none =>
          match ipv6BracketMatchGroups target with
          | some (addr, port) => some ["[" ++ addr ++ "]:" ++ port.getD DEFAULT_PORT]
          | none => none

/-- The automaton for the dotted-label language of DNS_REGEX, one or more
repetitions of a nonempty label of [a-zA-Z0-9-] characters followed by an
optional period: equivalently, a nonempty string of label characters and
periods that does not start with a period and has no two consecutive
periods.  The flag records whether a label character is required next. -/
def dnsHostAux : List Char → Bool → Bool
  | [], _ => true
  | c :: rest, needLabelChar =>
      if isLabelChar c then dnsHostAux rest false
      else if c = '.' then !needLabelChar && dnsHostAux rest true
      else false

/-- Group 1 of DNS_REGEX (also the authority piece, which uses the same
sub-expression). -/
def dnsHostBody (l : List Char) : Bool := !l.isEmpty && dnsHostAux l true

/-- The trailing host-and-optional-port part of DNS_REGEX.  Host labels and
the port cannot contain a colon, so a matching remainder splits on the
colon into exactly one or two pieces. -/
def hostPortMatch (l : List Char) : Option (String × Option String) :=
  match splitOnChar ':' l with
  | [host] => if dnsHostBody host then some (String.mk host, none) else none
  | [host, port] =>
      if dnsHostBody host && allDigits port then
        some (String.mk host, some (String.mk port))
      else none
  | _ => none

/-- Consume characters up to the first slash.  Authority labels cannot
contain a slash, so the first one terminates the authority piece. -/
def splitUntilSlash : List Char → Option (List Char × List Char)
  | [] => none
  | c :: rest =>
      if c = '/' then some ([], rest)
      else (splitUntilSlash rest).map (fun p => (c :: p.1, p.2))

/-- DNS_REGEX after the optional scheme: an optional double-slash authority
terminated by a slash, then host and optional port.  A target whose head is
a slash can only match through the authority alternative, since a host
cannot begin with a slash. -/
def dnsMatchBody (l : List Char) : Option (String × Option String) :=
  match l with
  | '/' :: '/' :: rest =>
      match splitUntilSlash rest with
      | some (authority, after) =>
          if dnsHostBody authority then hostPortMatch after else none
      | none => none
  | _ => hostPortMatch l

/-- DNS_REGEX applied to the whole target, producing groups 1 (hostname) and
2 (port).  The optional scheme alternative is tried first, matching the
JavaScript engine's leftmost-greedy choice; if the rest of the target fails
to match, the engine backtracks to reading the whole target without the
scheme. -/
def dnsMatchGroups (target : String) : Option (String × Option String) :=
  match target.toList with
  | 'd' :: 'n' :: 's' :: ':' :: rest =>
      match dnsMatchBody rest with
      | some r => some r
      | none => dnsMatchBody ('d' :: 'n' :: 's' :: ':' :: rest)
  | l => dnsMatchBody l

/-- The fields the `DnsResolver` constructor computes from its target
(resolver-dns.js lines 130-158).  The constructor is total: a target
matching neither grammar just leaves `dnsHostname` and `port` null. -/
structure DnsResolverState where
  target : String
  ipResult : Option (List String)
  dnsHostname : Option String
  port : Option String
deriving DecidableEq, Repr

/-- The `DnsResolver` constructor (resolver-dns.js lines 130-158), without
the fields (listener, percentage, default error) that carry no parse
information. -/
def mkDnsResolver (target : String) : DnsResolverState :=
  match dnsMatchGroups target with
  | none =>
      { target := target, ipResult := parseIP target, dnsHostname := none, port := none }
  | some (host, portOpt) =>
      { target := target, ipResult := parseIP target, dnsHostname := some host,
        port := some (portOpt.getD DEFAULT_PORT) }

/-- What `DnsResolver.startResolution` does immediately: emit the IP result
as one asynchronous successful resolution, or start the A/AAAA and TXT
lookups, or (neither field set) return without doing anything. -/
inductive ResolutionAction
  | emitSuccess (addresses : List String) (serviceConfig : Option ServiceConfig)
      (serviceConfigError : Option StatusObject)
  | startDnsLookups (hostname : String)
  | noAction
deriving DecidableEq, Repr

/-- `DnsResolver.startResolution` (resolver-dns.js lines 163-234), reduced
to the action it takes. -/
def startResolution (r : DnsResolverState) : ResolutionAction :=
  match r.ipResult with
  | some addrs => ResolutionAction.emitSuccess addrs none none
  | none =>
      match r.dnsHostname with
      | some hostname => ResolutionAction.startDnsLookups hostname
      | none => ResolutionAction.noAction

/-- `DnsResolver.getDefaultAuthority` (resolver-dns.js lines 246-258):
group 1 of the first matching regex, or `none` for the thrown
target-parse failure. -/
def getDefaultAuthority (target : String) : Option String :=
  match ipv4MatchGroups target with
  | some (addr, _) => some addr
  | none =>
      match ipv6MatchGroups target with
      | some addr => some addr
      | none =>
          match ipv6BracketMatchGroups target with
          | some (addr, _) => some addr
          | none => (dnsMatchGroups target).map Prod.fst

/-! Address interleaving (resolver-dns.js, `mergeArrays` and the address
handling in `startResolution`). -/

/-- The inner loop of `mergeArrays`: push `array[i]` for each array in which
index `i` is in range. -/
def collectAt {α : Type} (arrays : List (List α)) (i : Nat) : List α :=
  match arrays with
  | [] => []
  | array :: rest => (array[i]?).toList ++ collectAt rest i

/-- The outer loop of `mergeArrays` starting at index `i`: the loop guard
`i < maxLen` is rendered as the number of iterations still to run, so the
call with `remaining := maxLen` and `i := 0` performs exactly the
iterations `i = 0` up to `maxLen - 1` of the source loop. -/
def mergeLoop {α : Type} (arrays : List (List α)) : Nat → Nat → List α
  | 0, _ => []
  | remaining + 1, i => collectAt arrays i ++ mergeLoop arrays remaining (i + 1)

/-- `mergeArrays(...arrays)` (resolver-dns.js lines 114-125). -/
def mergeArrays {α : Type} (arrays : List (List α)) : List α :=
  mergeLoop arrays ((arrays.map List.length).foldr max 0) 0

/-- The round-robin interleaving of two lists described by the claim: heads
alternate starting with the first list, and the longer list's tail is
appended. -/
def roundRobinInterleave {α : Type} : List α → List α → List α
  | [], ys => ys
  | x :: xs, [] => x :: xs
  | x :: xs, y :: ys => x :: y :: roundRobinInterleave xs ys

/-- One entry of the `dns.lookup` result: an address string and its family
(4 or 6). -/
structure LookupAddress where
  address : String
  family : Nat
deriving DecidableEq, Repr

/-- The address-list computation of the lookup continuation in
`DnsResolver.startResolution` (resolver-dns.js lines 183-198): format the
family-4 results as "ip:port" and the family-6 results as brackets around
the ip followed by the port (suppressed entirely on runtimes without IPv6
literal support), then merge the two lists. -/
def dnsResolutionAddressList (addressList : List LookupAddress) (port : String)
    (ipv6Supported : Bool) : List String :=
  mergeArrays
    [(addressList.filter (fun a => decide (a.family = 4))).map
        (fun a => a.address ++ ":" ++ port),
      if ipv6Supported then
        (addressList.filter (fun a => decide (a.family = 6))).map
          (fun a => "[" ++ a.address ++ "]:" ++ port)
      else []]

/-! Theorems. -/

/-- C9: for every CallStream response whose headers carry an HTTP :status
value and for which no grpc-status trailer is received, the final RPC status
code equals the mapping 400 to INTERNAL, 401 to UNAUTHENTICATED, 403 to
PERMISSION_DENIED, 404 to UNIMPLEMENTED, 429, 502, 503 and 504 to
UNAVAILABLE, and every other value to UNKNOWN. -/
theorem C9_http_status_mapping :
    (handleTrailersFinalStatus (responseMappedStatusCode 400) none).code = Status.INTERNAL
    ∧ (handleTrailersFinalStatus (responseMappedStatusCode 401) none).code
        = Status.UNAUTHENTICATED
    ∧ (handleTrailersFinalStatus (responseMappedStatusCode 403) none).code
        = Status.PERMISSION_DENIED
    ∧ (handleTrailersFinalStatus (responseMappedStatusCode 404) none).code
        = Status.UNIMPLEMENTED
    ∧ (∀ n ∈ [429, 502, 503, 504],
        (handleTrailersFinalStatus (responseMappedStatusCode n) none).code
          = Status.UNAVAILABLE)
    ∧ (∀ n : Nat, n ∉ [400, 401, 403, 404, 429, 502, 503, 504] →
        (handleTrailersFinalStatus (responseMappedStatusCode n) none).code
          = Status.UNKNOWN) := by
  refine ⟨rfl, rfl, rfl, rfl, by decide, ?_⟩
  intro n hn
  simp only [List.mem_cons, List.not_mem_nil, or_false, not_or] at hn
  obtain ⟨h1, h2, h3, h4, h5, h6, h7, h8⟩ := hn
  simp [handleTrailersFinalStatus, receiveTrailersStatus, responseMappedStatusCode,
    h1, h2, h3, h4, h5, h6, h7, h8]

/-- C9 witness: concrete instances of the hypothesized conjuncts, at 429 and
at 200. -/
theorem C9_witness :
    (handleTrailersFinalStatus (responseMappedStatusCode 429) none).code = Status.UNAVAILABLE
    ∧ (handleTrailersFinalStatus (responseMappedStatusCode 200) none).code = Status.UNKNOWN :=
  ⟨C9_http_status_mapping.2.2.2.2.1 429 (by decide),
    C9_http_status_mapping.2.2.2.2.2 200 (by decide)⟩

/-- After any `endCall`, `finalStatus` is populated. -/
theorem endCall_finalStatus_ne_none (st : CallStreamState) (s : StatusObject) :
    (endCall st s).finalStatus ≠ none := by
  cases h : st.finalStatus <;> simp [endCall, h]

/-- `endCall` on an ended stream does nothing. -/
theorem endCall_of_ended (st : CallStreamState) (s : StatusObject)
    (h : st.finalStatus ≠ none) : endCall st s = st := by
  cases hf : st.finalStatus with
  | none => exact absurd hf h
  | some x => simp [endCall, hf]

/-- Any sequence of `endCall`s on an ended stream does nothing. -/
theorem foldl_endCall_of_ended (l : List StatusObject) :
    ∀ st : CallStreamState, st.finalStatus ≠ none → l.foldl endCall st = st := by
  induction l with
  | nil => intro st _; rfl
  | cons a t ih =>
      intro st h
      simp only [List.foldl_cons]
      rw [endCall_of_ended st a h]
      exact ih st h

/-- C4: for every CallStream and statuses s1..sN with N at least 1, calling
endCall(s1) through endCall(sN) is observationally equivalent to calling
endCall(s1) once: each later call is a no-op, and on a stream that has not
ended, `finalStatus` is assigned exactly once (to s1), the status event is
emitted exactly once, and when a subchannel is attached the call-unref and
disconnect-listener removal each happen exactly once. -/
theorem C4_endCall_idempotent (st : CallStreamState) (s1 : StatusObject)
    (rest : List StatusObject) :
    rest.foldl endCall (endCall st s1) = endCall st s1
    ∧ (st.finalStatus = none →
        (endCall st s1).finalStatus = some s1
        ∧ (endCall st s1).statusEventCount = st.statusEventCount + 1
        ∧ (st.hasSubchannel = true →
            (endCall st s1).callUnrefCount = st.callUnrefCount + 1
            ∧ (endCall st s1).disconnectRemoveCount = st.disconnectRemoveCount + 1)) := by
  constructor
  · exact foldl_endCall_of_ended rest _ (endCall_finalStatus_ne_none st s1)
  · intro h
    refine ⟨by simp [endCall, h], by simp [endCall, h], fun hs => ?_⟩
    constructor <;> simp [endCall, h, hs]

/-- C4 witness: two `endCall`s on a fresh stream with an attached subchannel
collapse to the first one, which records the first status. -/
theorem C4_witness :
    ([⟨Status.CANCELLED, "second"⟩] : List StatusObject).foldl endCall
        (endCall ⟨none, 0, true, 0, 0⟩ ⟨Status.UNAVAILABLE, "first"⟩)
      = endCall ⟨none, 0, true, 0, 0⟩ ⟨Status.UNAVAILABLE, "first"⟩
    ∧ (endCall ⟨none, 0, true, 0, 0⟩ ⟨Status.UNAVAILABLE, "first"⟩).finalStatus
      = some ⟨Status.UNAVAILABLE, "first"⟩ := by
  have h := C4_endCall_idempotent ⟨none, 0, true, 0, 0⟩ ⟨Status.UNAVAILABLE, "first"⟩
    [⟨Status.CANCELLED, "second"⟩]
  exact ⟨h.1, (h.2 rfl).1⟩

/-- C2: the working service config of a successful resolution follows the
three-step algorithm: a non-null serviceConfig is used and remembered; else
with a null error the previous config is cleared (set to null) and the
default is used; else the previous config is used if a prior resolution set
it, otherwise the default is used if non-null, otherwise the event is
handled as a resolution failure carrying the error. -/
theorem C2_service_config_selection (serviceConfig : Option ServiceConfig)
    (serviceConfigError : Option StatusObject) (defaultServiceConfig : Option ServiceConfig)
    (previousServiceConfig : Option (Option ServiceConfig)) :
    (∀ sc, serviceConfig = some sc →
        chooseServiceConfig serviceConfig serviceConfigError defaultServiceConfig
            previousServiceConfig
          = ⟨some sc, some (some sc), none⟩)
    ∧ (serviceConfig = none → serviceConfigError = none →
        chooseServiceConfig serviceConfig serviceConfigError defaultServiceConfig
            previousServiceConfig
          = ⟨defaultServiceConfig, some none, none⟩)
    ∧ (∀ err prev, serviceConfig = none → serviceConfigError = some err →
        previousServiceConfig = some prev →
        chooseServiceConfig serviceConfig serviceConfigError defaultServiceConfig
            previousServiceConfig
          = ⟨prev, some prev, none⟩)
    ∧ (∀ err d, serviceConfig = none → serviceConfigError = some err →
        previousServiceConfig = none → defaultServiceConfig = some d →
        chooseServiceConfig serviceConfig serviceConfigError defaultServiceConfig
            previousServiceConfig
          = ⟨some d, none, none⟩)
    ∧ (∀ err, serviceConfig = none → serviceConfigError = some err →
        previousServiceConfig = none → defaultServiceConfig = none →
        chooseServiceConfig serviceConfig serviceConfigError defaultServiceConfig
            previousServiceConfig
          = ⟨none, none, some err⟩) := by
  refine ⟨?_, ?_, ?_, ?_, ?_⟩ <;> intros <;> subst_vars <;> simp [chooseServiceConfig]

/-- C2 witness: a resolution with null config and null error clears the
previous config and uses the default. -/
theorem C2_witness :
    chooseServiceConfig none none (some ⟨["pick_first"], []⟩) none
      = ⟨some ⟨["pick_first"], []⟩, some none, none⟩ :=
  (C2_service_config_selection none none (some ⟨["pick_first"], []⟩) none).2.1 rfl rfl

/-- C3: `tryPick` fails a COMPLETE pick with a null subchannel with
UNAVAILABLE "Request dropped by load balancing policy"; fails a COMPLETE
pick whose subchannel is no longer READY after the outgoing-metadata
filters with UNAVAILABLE "Connection dropped while starting call"; pushes a
QUEUE pick onto the pick queue; and fails a TRANSIENT_FAILURE pick with the
carried status unless the call metadata has waitForReady set, in which case
the call is queued. -/
theorem C3_tryPick_dispatch (pickQueue : List Metadata) (callMetadata : Metadata)
    (subchannelStateAfterFilters : ConnectivityState) (startCallSucceeds : Bool)
    (filterResult : FilterResult) :
    (tryPick pickQueue (PickResult.COMPLETE none) callMetadata filterResult
        subchannelStateAfterFilters startCallSucceeds
      = (TryPickAction.cancelWithStatus Status.UNAVAILABLE
          "Request dropped by load balancing policy", pickQueue))
    ∧ (∀ u finalMetadata, filterResult = FilterResult.ok finalMetadata →
        subchannelStateAfterFilters ≠ ConnectivityState.READY →
        tryPick pickQueue (PickResult.COMPLETE (some u)) callMetadata filterResult
            subchannelStateAfterFilters startCallSucceeds
          = (TryPickAction.cancelWithStatus Status.UNAVAILABLE
              "Connection dropped while starting call", pickQueue))
    ∧ (tryPick pickQueue PickResult.QUEUE callMetadata filterResult
        subchannelStateAfterFilters startCallSucceeds
      = (TryPickAction.queued, pickQueue ++ [callMetadata]))
    ∧ (∀ status : StatusObject, callMetadata.waitForReady = false →
        tryPick pickQueue (PickResult.TRANSIENT_FAILURE status) callMetadata filterResult
            subchannelStateAfterFilters startCallSucceeds
          = (TryPickAction.cancelWithStatus status.code status.details, pickQueue))
    ∧ (∀ status : StatusObject, callMetadata.waitForReady = true →
        tryPick pickQueue (PickResult.TRANSIENT_FAILURE status) callMetadata filterResult
            subchannelStateAfterFilters startCallSucceeds
          = (TryPickAction.queued, pickQueue ++ [callMetadata])) := by
  refine ⟨rfl, ?_, rfl, ?_, ?_⟩
  · intro u finalMetadata hf hs
    subst hf
    simp [tryPick, hs]
  · intro status h
    simp [tryPick, h]
  · intro status h
    simp [tryPick, h]

/-- C3 witness: a COMPLETE pick whose subchannel has left READY by the time
the filters finish is failed with "Connection dropped while starting call". -/
theorem C3_witness :
    tryPick [] (PickResult.COMPLETE (some ())) ⟨false⟩ (FilterResult.ok ⟨false⟩)
        ConnectivityState.IDLE true
      = (TryPickAction.cancelWithStatus Status.UNAVAILABLE
          "Connection dropped while starting call", []) :=
  (C3_tryPick_dispatch [] ⟨false⟩ ConnectivityState.IDLE true (FilterResult.ok ⟨false⟩)).2.1
    () ⟨false⟩ rfl (by decide)

/-- Each `ResolvingLoadBalancer` operation preserves the inner/pending
invariant. -/
theorem rlbInvariant_step (s : RLBState) (e : RLBEvent) (h : RLBInvariant s) :
    RLBInvariant (rlbStep s e) := by
  cases e with
  | successfulResolution name =>
      rcases hI : s.innerLoadBalancer with _ | innerName
      · simp [rlbStep, hI, RLBInvariant]
      · rcases hP : s.pendingReplacementLoadBalancer with _ | pendingName <;>
          simp only [rlbStep, hI, hP] <;> split_ifs <;>
          simp [RLBInvariant, hI]
  | innerStateUpdate cs =>
      simp only [rlbStep]
      by_cases h1 : cs ≠ ConnectivityState.READY ∧ s.pendingReplacementLoadBalancer ≠ none
      · rw [if_pos h1]
        intro _
        rfl
      · rw [if_neg h1]
        by_cases h2 : cs = ConnectivityState.IDLE
        · rw [if_pos h2]
          intro _
          show s.pendingReplacementLoadBalancer = none
          push_neg at h1
          refine h1 ?_
          rw [h2]
          decide
        · rw [if_neg h2]
          exact h
  | replacementStateUpdate cs =>
      rcases hP : s.pendingReplacementLoadBalancer with _ | pendingName
      · simpa [rlbStep, hP] using h
      · simp only [rlbStep, hP]
        by_cases h1 : cs = ConnectivityState.READY
        · rw [if_pos h1]
          intro _
          rfl
        · rw [if_neg h1]
          by_cases h2 : cs = ConnectivityState.IDLE
          · rw [if_pos h2]
            intro _
            rfl
          · rw [if_neg h2]
            exact h
  | destroy => intro _; rfl
  | resolutionFailure => exact h
  | resetBackoff => exact h
  | exitIdle => exact h
  | backoffExpiry => exact h
  | updateResolution => exact h

/-- C5: the invariant "innerLoadBalancer is null implies
pendingReplacementLoadBalancer is null" holds after construction and is
preserved by every operation of the ResolvingLoadBalancer, hence holds
after every operation sequence. -/
theorem C5_rlb_invariant :
    RLBInvariant rlbInitialState
    ∧ (∀ (s : RLBState) (e : RLBEvent), RLBInvariant s → RLBInvariant (rlbStep s e))
    ∧ (∀ l : List RLBEvent, RLBInvariant (l.foldl rlbStep rlbInitialState)) := by
  have hfold : ∀ (l : List RLBEvent) (s : RLBState),
      RLBInvariant s → RLBInvariant (l.foldl rlbStep s) := by
    intro l
    induction l with
    | nil => exact fun s hs => hs
    | cons a t ih => exact fun s hs => ih _ (rlbInvariant_step s a hs)
  exact ⟨fun _ => rfl, rlbInvariant_step, fun l => hfold l rlbInitialState (fun _ => rfl)⟩

/-- C5 witness: the invariant holds after a first successful resolution
installs a pick_first inner balancer. -/
theorem C5_witness :
    RLBInvariant (rlbStep rlbInitialState (RLBEvent.successfulResolution "pick_first")) :=
  C5_rlb_invariant.2.1 rlbInitialState (RLBEvent.successfulResolution "pick_first")
    C5_rlb_invariant.1

/-- Every callback invoked by `updateState` belongs to a registered
watcher. -/
theorem updateState_invoked_mem (ch : ChannelState) (ns : ConnectivityState) (x : Nat)
    (hx : x ∈ (updateState ch ns).2) :
    x ∈ ch.connectivityStateWatchers.map Watcher.callbackId := by
  simp only [updateState, List.mem_map, List.mem_filter] at hx ⊢
  obtain ⟨w, ⟨hw, _⟩, hid⟩ := hx
  exact ⟨w, hw, hid⟩

/-- `updateState` only removes watchers, never adds any. -/
theorem updateState_watchers_subset (ch : ChannelState) (ns : ConnectivityState) (w : Watcher)
    (hw : w ∈ ((updateState ch ns).1).connectivityStateWatchers) :
    w ∈ ch.connectivityStateWatchers := by
  simp only [updateState, List.mem_filter] at hw
  exact hw.1

/-- A callback id not present among the registered watchers is never invoked
by any sequence of later state transitions. -/
theorem runConnectivityUpdates_no_invoke (cb : Nat) :
    ∀ (updates : List ConnectivityState) (ch : ChannelState),
      cb ∉ ch.connectivityStateWatchers.map Watcher.callbackId →
      cb ∉ (runConnectivityUpdates ch updates).2 := by
  intro updates
  induction updates with
  | nil =>
      intro ch _
      simp [runConnectivityUpdates]
  | cons ns rest ih =>
      intro ch h hmem
      rcases List.mem_append.mp hmem with hmem1 | hmem2
      · exact h (updateState_invoked_mem ch ns cb hmem1)
      · refine ih (updateState ch ns).1 ?_ hmem2
        intro hc
        obtain ⟨w, hw, hid⟩ := List.mem_map.mp hc
        exact h (List.mem_map.mpr ⟨w, updateState_watchers_subset ch ns w hw, hid⟩)

/-- C10: a `watchConnectivityState` call whose deadline is at or before the
current time invokes the callback asynchronously exactly once with an error,
adds no watcher, leaves the channel state unchanged, and (the callback not
being registered) is never also invoked by any later state transition. -/
theorem C10_watch_deadline_passed (ch : ChannelState) (currentState : ConnectivityState)
    (deadline now : Int) (callbackId : Nat) (hd : deadline ≤ now) :
    watchConnectivityState ch currentState deadline now callbackId
      = (ch, WatchResult.deadlinePassedCallback callbackId)
    ∧ (callbackId ∉ ch.connectivityStateWatchers.map Watcher.callbackId →
        ∀ updates : List ConnectivityState,
          callbackId ∉ (runConnectivityUpdates ch updates).2) := by
  constructor
  · simp [watchConnectivityState, hd]
  · intro h updates
    exact runConnectivityUpdates_no_invoke callbackId updates ch h

/-- C10 witness: on a channel with no watchers, a watch with deadline 5 at
time 7 returns the channel unchanged with one error callback, and the
callback is not invoked by a later transition to READY. -/
theorem C10_witness :
    watchConnectivityState ⟨ConnectivityState.IDLE, []⟩ ConnectivityState.IDLE 5 7 0
      = (⟨ConnectivityState.IDLE, []⟩, WatchResult.deadlinePassedCallback 0)
    ∧ (0 : Nat) ∉
        (runConnectivityUpdates ⟨ConnectivityState.IDLE, []⟩ [ConnectivityState.READY]).2 := by
  have h := C10_watch_deadline_passed ⟨ConnectivityState.IDLE, []⟩ ConnectivityState.IDLE
    5 7 0 (by decide)
  exact ⟨h.1, h.2 (by decide) [ConnectivityState.READY]⟩

/-- C1 counterexample: a `goaway` received while the subchannel is
CONNECTING moves it to IDLE, and the pair (CONNECTING, IDLE) is not among
the transitions the claim permits (the claim instead asserts CONNECTING to
TRANSIENT_FAILURE on goaway). -/
theorem C1_counterexample :
    subchannelStep SubchannelEvent.goaway
        { connectivityState := ConnectivityState.CONNECTING, continueConnecting := false }
      = { connectivityState := ConnectivityState.IDLE, continueConnecting := false }
    ∧ (ConnectivityState.CONNECTING, ConnectivityState.IDLE) ∉ claimedSubchannelTransitions := by
  decide

/-- C1 (amended): every state change an operation performs is one of the
section 4.3 table's transition pairs extended with CONNECTING to IDLE (which
the goaway handler and the backoff expiry callback perform), and every
attempted transition whose source state is outside the permitted set leaves
the state unchanged. -/
theorem C1_subchannel_transitions (s : SubchannelState) (e : SubchannelEvent) :
    ((subchannelStep e s).connectivityState ≠ s.connectivityState →
      (s.connectivityState, (subchannelStep e s).connectivityState)
        ∈ observedSubchannelTransitions)
    ∧ (∀ (oldStates : List ConnectivityState) (newState : ConnectivityState),
        s.connectivityState ∉ oldStates →
        transitionToState oldStates newState s = (false, s)) := by
  constructor
  · rcases s with ⟨cs, cc⟩
    cases e <;> cases cs <;> cases cc <;> decide
  · intro oldStates newState h
    simp [transitionToState, h]

/-- C1 witness: `startConnecting` from IDLE lands in the permitted set, and
an attempted READY-to-IDLE transition from IDLE leaves the state
unchanged. -/
theorem C1_witness :
    ((⟨ConnectivityState.IDLE, false⟩ : SubchannelState).connectivityState,
        (subchannelStep SubchannelEvent.startConnecting
          ⟨ConnectivityState.IDLE, false⟩).connectivityState)
      ∈ observedSubchannelTransitions
    ∧ transitionToState [ConnectivityState.READY] ConnectivityState.IDLE
        ⟨ConnectivityState.IDLE, false⟩
      = (false, ⟨ConnectivityState.IDLE, false⟩) := by
  have h := C1_subchannel_transitions ⟨ConnectivityState.IDLE, false⟩
    SubchannelEvent.startConnecting
  exact ⟨h.1 (by decide), h.2 [ConnectivityState.READY] ConnectivityState.IDLE (by decide)⟩

/-- Indexing past the head is indexing the tail. -/
theorem getElem?_tail {α : Type} (A : List α) (i : Nat) : A[i + 1]? = A.tail[i]? := by
  cases A <;> simp

/-- Collecting two lists' entries at index i + 1 collects their tails'
entries at index i. -/
theorem collectAt_shift {α : Type} (A B : List α) (i : Nat) :
    collectAt [A, B] (i + 1) = collectAt [A.tail, B.tail] i := by
  simp only [collectAt]
  rw [getElem?_tail, getElem?_tail]

/-- The merge loop over two lists starting at index i + 1 is the merge loop
over their tails starting at index i. -/
theorem mergeLoop_shift {α : Type} (A B : List α) :
    ∀ (r i : Nat), mergeLoop [A, B] r (i + 1) = mergeLoop [A.tail, B.tail] r i := by
  intro r
  induction r with
  | zero => intro i; rfl
  | succ r ih =>
      intro i
      rw [mergeLoop, mergeLoop, collectAt_shift, ih (i + 1)]

/-- `mergeArrays` on two lists runs the loop up to the maximum of the two
lengths. -/
theorem mergeArrays_two_def {α : Type} (A B : List α) :
    mergeArrays [A, B] = mergeLoop [A, B] (max A.length B.length) 0 := by
  have h : (([A, B]).map List.length).foldr max 0 = max A.length B.length := by
    simp
  unfold mergeArrays
  rw [h]

/-- Merging with an empty first list returns the second list. -/
theorem mergeArrays_nil_left {α : Type} (B : List α) : mergeArrays [[], B] = B := by
  induction B with
  | nil => rw [mergeArrays_two_def]; rfl
  | cons b bs ih =>
      rw [mergeArrays_two_def]
      have hm : max (List.length ([] : List α)) (b :: bs).length = bs.length + 1 := by
        simp
      rw [hm, mergeLoop, mergeLoop_shift]
      simp only [List.tail_nil, List.tail_cons]
      have h2 : mergeLoop [([] : List α), bs] bs.length 0 = mergeArrays [[], bs] := by
        rw [mergeArrays_two_def]
        congr 1
        simp
      rw [h2, ih]
      simp [collectAt]

/-- Merging with an empty second list returns the first list. -/
theorem mergeArrays_nil_right {α : Type} (A : List α) : mergeArrays [A, []] = A := by
  induction A with
  | nil => rw [mergeArrays_two_def]; rfl
  | cons a as ih =>
      rw [mergeArrays_two_def]
      have hm : max (a :: as).length (List.length ([] : List α)) = as.length + 1 := by
        simp
      rw [hm, mergeLoop, mergeLoop_shift]
      simp only [List.tail_nil, List.tail_cons]
      have h2 : mergeLoop [as, ([] : List α)] as.length 0 = mergeArrays [as, []] := by
        rw [mergeArrays_two_def]
        congr 1
        simp
      rw [h2, ih]
      simp [collectAt]

/-- Merging two nonempty lists takes both heads then merges the tails. -/
theorem mergeArrays_cons_cons {α : Type} (a b : α) (as bs : List α) :
    mergeArrays [a :: as, b :: bs] = a :: b :: mergeArrays [as, bs] := by
  rw [mergeArrays_two_def]
  have hm : max (a :: as).length (b :: bs).length = max as.length bs.length + 1 := by
    simp [List.length_cons, Nat.succ_max_succ]
  rw [hm, mergeLoop, mergeLoop_shift]
  simp only [List.tail_cons]
  rw [← mergeArrays_two_def]
  simp [collectAt]

/-- `mergeArrays` on two lists is exactly the round-robin interleaving. -/
theorem mergeArrays_eq_roundRobin {α : Type} (A : List α) :
    ∀ B : List α, mergeArrays [A, B] = roundRobinInterleave A B := by
  induction A with
  | nil =>
      intro B
      rw [mergeArrays_nil_left]
      rfl
  | cons a as ih =>
      intro B
      rcases B with _ | ⟨b, bs⟩
      · rw [mergeArrays_nil_right]
        rfl
      · rw [mergeArrays_cons_cons, ih bs]
        rfl

/-- C8: the address list the DNS resolver delivers is the round-robin
interleaving of the formatted IPv4 results with the formatted IPv6 results,
starting with the IPv4 list and appending the longer list's tail; in
particular A = [a1, a2] and AAAA = [b1] yield the order [a1, b1, a2]. -/
theorem C8_dns_address_interleaving :
    (∀ A B : List String, mergeArrays [A, B] = roundRobinInterleave A B)
    ∧ dnsResolutionAddressList [⟨"a1", 4⟩, ⟨"a2", 4⟩, ⟨"b1", 6⟩] "443" true
      = ["a1:443", "[b1]:443", "a2:443"]
    ∧ mergeArrays [["a1", "a2"], ["b1"]] = ["a1", "b1", "a2"] :=
  ⟨fun A B => mergeArrays_eq_roundRobin A B, by decide, by decide⟩

/-- A target on which `parseIP` fails matches none of the three IP regular
expressions. -/
theorem parseIP_eq_none (t : String) (h : parseIP t = none) :
    ipv4MatchGroups t = none ∧ ipv6MatchGroups t = none
      ∧ ipv6BracketMatchGroups t = none := by
  rcases h4 : ipv4MatchGroups t with _ | ⟨addr4, port4⟩
  · rcases h6 : ipv6MatchGroups t with _ | addr6
    · rcases hb : ipv6BracketMatchGroups t with _ | ⟨addrB, portB⟩
      · exact ⟨rfl, rfl, rfl⟩
      · simp [parseIP, h4, h6, hb] at h
    · simp [parseIP, h4, h6] at h
  · simp [parseIP, h4] at h

/-- C6 counterexample: the target "!!!" matches neither the DNS grammar nor
an IP literal form, yet constructing the DNS resolver for it does not fail:
the constructor returns a resolver with no IP result and no hostname, whose
`startResolution` performs no action at all; only `getDefaultAuthority`
raises a parse failure for this target. -/
theorem C6_counterexample :
    parseIP "!!!" = none
    ∧ dnsMatchGroups "!!!" = none
    ∧ mkDnsResolver "!!!"
        = { target := "!!!", ipResult := none, dnsHostname := none, port := none }
    ∧ startResolution (mkDnsResolver "!!!") = ResolutionAction.noAction
    ∧ getDefaultAuthority "!!!" = none := by
  decide

/-- C6 (amended): for every target matching neither the DNS grammar nor an
IP literal form, the DnsResolver constructor succeeds anyway, storing no IP
result and no hostname; `startResolution` then performs no action (it emits
neither a resolution nor an error); the parse error surfaces only from
`getDefaultAuthority`, which fails for such targets. -/
theorem C6_unparseable_target (target : String)
    (hip : parseIP target = none) (hdns : dnsMatchGroups target = none) :
    mkDnsResolver target
      = { target := target, ipResult := none, dnsHostname := none, port := none }
    ∧ startResolution (mkDnsResolver target) = ResolutionAction.noAction
    ∧ getDefaultAuthority target = none := by
  have hmk : mkDnsResolver target
      = { target := target, ipResult := none, dnsHostname := none, port := none } := by
    simp [mkDnsResolver, hdns, hip]
  obtain ⟨h4, h6, hb⟩ := parseIP_eq_none target hip
  refine ⟨hmk, ?_, ?_⟩
  · rw [hmk]
    rfl
  · simp [getDefaultAuthority, h4, h6, hb, hdns]

/-- C6 witness: the amended claim at the concrete unparseable target
"!!!". -/
theorem C6_witness :
    mkDnsResolver "!!!"
      = { target := "!!!", ipResult := none, dnsHostname := none, port := none }
    ∧ startResolution (mkDnsResolver "!!!") = ResolutionAction.noAction
    ∧ getDefaultAuthority "!!!" = none :=
  C6_unparseable_target "!!!" (by decide) (by decide)

/-- C7: for every target that is an IP literal, `startResolution` emits
exactly one successful resolution whose address list is the single formatted
address (IPv4 as ip colon port, IPv6 bracket-wrapped, port defaulting to 443
when absent) with null serviceConfig and null serviceConfigError, and
performs no DNS lookups; in particular "1.2.3.4" yields "1.2.3.4:443". -/
theorem C7_ip_literal_resolution :
    (∀ (t addr : String) (port : Option String),
        ipv4MatchGroups t = some (addr, port) →
        parseIP t = some [addr ++ ":" ++ port.getD DEFAULT_PORT])
    ∧ (∀ t addr : String, ipv4MatchGroups t = none → ipv6MatchGroups t = some addr →
        parseIP t = some ["[" ++ addr ++ "]:" ++ DEFAULT_PORT])
    ∧ (∀ (t addr : String) (port : Option String), ipv4MatchGroups t = none →
        ipv6MatchGroups t = none → ipv6BracketMatchGroups t = some (addr, port) →
        parseIP t = some ["[" ++ addr ++ "]:" ++ port.getD DEFAULT_PORT])
    ∧ (∀ (t : String) (addrs : List String), parseIP t = some addrs →
        startResolution (mkDnsResolver t) = ResolutionAction.emitSuccess addrs none none)
    ∧ parseIP "1.2.3.4" = some ["1.2.3.4:443"] := by
  refine ⟨?_, ?_, ?_, ?_, by decide⟩
  · intro t addr port h
    simp [parseIP, h]
  · intro t addr h4 h6
    simp [parseIP, h4, h6]
  · intro t addr port h4 h6 hb
    simp [parseIP, h4, h6, hb]
  · intro t addrs h
    rcases hd : dnsMatchGroups t with _ | ⟨host, portOpt⟩ <;>
      simp [mkDnsResolver, startResolution, hd, h]

/-- C7 witness: the IPv4 literal "1.2.3.4" resolves to the single address
"1.2.3.4:443" in one successful resolution with null config and error. -/
theorem C7_witness :
    parseIP "1.2.3.4" = some ["1.2.3.4:443"]
    ∧ startResolution (mkDnsResolver "1.2.3.4")
      = ResolutionAction.emitSuccess ["1.2.3.4:443"] none none := by
  have h1 : ipv4MatchGroups "1.2.3.4" = some ("1.2.3.4", none) := by decide
  have h2 := C7_ip_literal_resolution.1 "1.2.3.4" "1.2.3.4" none h1
  have h3 : parseIP "1.2.3.4" = some ["1.2.3.4:443"] := by
    rw [h2]
    rfl
  exact ⟨h3, C7_ip_literal_resolution.2.2.2.1 "1.2.3.4" ["1.2.3.4:443"] h3⟩

end GrpcJs
